import Mathlib

/-!
Verification of the MT5 login / account-snapshot / polling core
(src/project/src/services/mt5Api.ts and src/project/src/components/Dashboard.tsx)
against its natural-language specification.

The TypeScript functions are shallowly embedded as total Lean functions.
Network transport is made explicit: each embedded operation that awaits a
fetch takes the outcome of that fetch as a parameter, so "no network access"
is expressed as independence of the result from that parameter.
-/

namespace MT5Login

/-- The whitespace characters relevant to JavaScript's String.prototype.trim
for the inputs this code handles. -/
def jsWhitespace (c : Char) : Bool :=
  c == ' ' || c == '\t' || c == '\n' || c == '\r'

/-- Drop leading whitespace from a character list. -/
def dropWhileWs : List Char → List Char
  | [] => []
  | c :: cs => if jsWhitespace c then dropWhileWs cs else c :: cs

/-- Embedding of JavaScript String.prototype.trim: strip whitespace from
both ends. -/
def strTrim (s : String) : String :=
  ⟨(dropWhileWs (dropWhileWs s.data).reverse).reverse⟩

/-- Embedding of JavaScript String.prototype.toLowerCase (ASCII range,
which is all this code compares). -/
def strToLower (s : String) : String :=
  ⟨s.data.map Char.toLower⟩

/-- Emptiness of a string, by its character list. -/
def strIsEmpty (s : String) : Bool :=
  s.data.isEmpty

/-- JavaScript list-level helper: does the first list start with the second?
Backs the embedding of String.prototype.includes. -/
def charListStartsWith : List Char → List Char → Bool
  | _, [] => true
  | [], _ :: _ => false
  | c :: cs, d :: ds => c == d && charListStartsWith cs ds

/-- Is the second list a contiguous sublist of the first? -/
def charListContains : List Char → List Char → Bool
  | [], pat => pat.isEmpty
  | c :: cs, pat => charListStartsWith (c :: cs) pat || charListContains cs pat

/-- Embedding of JavaScript String.prototype.includes. -/
def strIncludes (s pat : String) : Bool :=
  charListContains s.data pat.data

/-- JavaScript truthiness-based string fallback: models `v || fallback` where
`v` is an optional string field (absent / empty string are falsy). -/
def jsStringOr : Option String → String → String
  | some s, fallback => if strIsEmpty s then fallback else s
  | none, fallback => fallback

/-- mt5Api.ts line 9: the fixed error keywords scanned for in a candidate token. -/
def errorKeywords : List String :=
  ["error", "invalid", "failed", "denied", "unauthorized"]

/-- mt5Api.ts lines 6-13, `validateToken`: false when the body is empty or
shorter than 10 characters, or when its lowercase form contains one of the
error keywords. -/
def validateToken (token : String) : Bool :=
  if strIsEmpty token || token.data.length < 10 then false
  else
    let lowerToken := strToLower token
    !(errorKeywords.any fun keyword => strIncludes lowerToken keyword)

/-- types/mt5.ts `LoginCredentials`. -/
structure LoginCredentials where
  username : String
  password : String
  server : String
deriving Repr, DecidableEq

/-- Embedding of the regular-expression test from mt5Api.ts line 24:
a string matches the pattern of one-or-more ASCII digits exactly when it is
non-empty and every character is a digit. -/
def regexAllDigits (s : String) : Bool :=
  !(strIsEmpty s) && s.data.all fun c => c.isDigit

/-- mt5Api.ts lines 16-29, `validateCredentials`. -/
def validateCredentials (credentials : LoginCredentials) : Option String :=
  if strIsEmpty (strTrim credentials.username) then some "Username is required"
  else if strIsEmpty (strTrim credentials.password) then some "Password is required"
  else if strIsEmpty (strTrim credentials.server) then some "Server is required"
  else if !(regexAllDigits (strTrim credentials.username)) then
    some "Username must be a valid account number (numeric)"
  else none

/-- The observable parts of a fetch `Response` that the login path reads.
`jsonBody` models the result of `response.json()`: `none` when the body does
not parse as JSON, otherwise the string-valued fields of the parsed object
(the only shape this code reads from it). `body` models `response.text()`. -/
structure Response where
  status : Nat
  statusText : String
  contentType : Option String
  body : String
  jsonBody : Option (List (String × String))
deriving Repr, DecidableEq

/-- `response.ok` in fetch: status in the 200-299 range. -/
def Response.ok (r : Response) : Bool :=
  decide (200 ≤ r.status ∧ r.status < 300)

/-- mt5Api.ts line 34-36: `contentType?.includes('application/json')`. -/
def contentTypeIndicatesJson : Option String → Bool
  | none => false
  | some ct => strIncludes ct "application/json"

/-- mt5Api.ts lines 32-46, `handleApiError`: extract a human-readable error
message from a non-success response. A JSON parse failure inside the try
block lands in the catch branch. -/
def handleApiError (response : Response) : String :=
  if contentTypeIndicatesJson response.contentType then
    match response.jsonBody with
    | some errorData =>
        jsStringOr (errorData.lookup "message")
          (jsStringOr (errorData.lookup "error")
            ("API Error: " ++ toString response.status))
    | none =>
        "Network Error: " ++ toString response.status ++ " " ++ response.statusText
  else
    if strIsEmpty response.body then "HTTP Error: " ++ toString response.status
    else response.body

/-- types/mt5.ts `LoginResponse`. -/
structure LoginResponse where
  success : Bool
  token : Option String := none
  error : Option String := none
deriving Repr, DecidableEq

/-- Outcome of the single `fetch` performed by `loginToMT5`: either a
response, or one of the throw classes distinguished by the catch block of
mt5Api.ts lines 88-102 (TypeError, AbortError, another Error carrying a
message, or a thrown non-Error value). -/
inductive FetchOutcome where
  | success (response : Response)
  | typeError
  | abortError
  | errorThrown (message : String)
  | nonErrorThrown
deriving Repr, DecidableEq

/-- mt5Api.ts lines 48-103, `loginToMT5`. The transport outcome is a
parameter; credential validation happens before the fetch, so on validation
failure the result does not depend on it. -/
def loginToMT5 (credentials : LoginCredentials) (fetchOutcome : FetchOutcome) :
    LoginResponse :=
  match validateCredentials credentials with
  | some validationError => { success := false, error := some validationError }
  | none =>
    match fetchOutcome with
    | .success response =>
      if response.ok && response.status == 200 then
        let token := response.body
        if validateToken token then
          { success := true, token := some (strTrim token) }
        else
          { success := false, error := some "Invalid authentication token received" }
      else
        { success := false, error := some (handleApiError response) }
    | .typeError =>
        { success := false,
          error := some "Network connection failed. Please check your internet connection." }
    | .abortError =>
        { success := false, error := some "Request timeout. Please try again." }
    | .errorThrown message => { success := false, error := some message }
    | .nonErrorThrown =>
        { success := false, error := some "An unexpected error occurred" }

/-- types/mt5.ts `AccountInfo`. The code performs no arithmetic on the
numeric fields, so they are embedded as integers. -/
structure AccountInfo where
  balance : Int
  equity : Int
  margin : Int
  freeMargin : Int
  marginLevel : Int
  currency : String
  accountNumber : String
  accountName : String
  serverName : String
  leverage : Int
  profit : Int
deriving Repr, DecidableEq

/-- mt5Api.ts lines 106-118: the fixed default snapshot. -/
def defaultAccountInfo : AccountInfo :=
  { balance := 0
    equity := 0
    margin := 0
    freeMargin := 0
    marginLevel := 0
    currency := "USD"
    accountNumber := "N/A"
    accountName := "N/A"
    serverName := "N/A"
    leverage := 0
    profit := 0 }

/-- The shape `getAccountInfo` reads from the parsed account-summary body;
every field may be absent (`null`-ish values fall to the default via `??`). -/
structure SummaryBody where
  balance : Option Int := none
  equity : Option Int := none
  margin : Option Int := none
  freeMargin : Option Int := none
  marginLevel : Option Int := none
  currency : Option String := none
  profit : Option Int := none
deriving Repr, DecidableEq

/-- The shape `getAccountInfo` reads from the parsed account-details body. -/
structure DetailsBody where
  accountNumber : Option String := none
  accountName : Option String := none
  serverName : Option String := none
  leverage : Option Int := none
deriving Repr, DecidableEq

/-- A resolved snapshot response: HTTP status plus the result of
`response.json()` (`none` when parsing throws). -/
structure SnapshotResponse (β : Type) where
  status : Nat
  json : Option β
deriving Repr, DecidableEq

/-- `response.ok` for a snapshot response. -/
def SnapshotResponse.ok {β : Type} (r : SnapshotResponse β) : Bool :=
  decide (200 ≤ r.status ∧ r.status < 300)

/-- Outcome of one of the two snapshot fetch promises: resolved with a
response, or rejected at the transport level. `Promise.all` rejects as soon
as either member rejects, which the match in `getAccountInfo` mirrors. -/
inductive FetchResult (β : Type) where
  | resolved (response : SnapshotResponse β)
  | rejected
deriving Repr, DecidableEq

/-- mt5Api.ts lines 139-151: the effective summary data — the parsed body
when the response is ok and parses, else the empty object it was
initialized to. -/
def summaryDataOf (r : SnapshotResponse SummaryBody) : SummaryBody :=
  if r.ok then r.json.getD {} else {}

/-- mt5Api.ts lines 153-162: the effective details data. -/
def detailsDataOf (r : SnapshotResponse DetailsBody) : DetailsBody :=
  if r.ok then r.json.getD {} else {}

/-- mt5Api.ts lines 105-183, `getAccountInfo`. The two fetch outcomes are
parameters. An empty/whitespace token short-circuits to the defaults before
any fetch; if either promise rejects, `Promise.all` rejects and the outer
catch returns the defaults; otherwise each field is merged from its own
source's effective data with `??`-fallback to the default. -/
def getAccountInfo (token : String)
    (summaryFetch : FetchResult SummaryBody)
    (detailsFetch : FetchResult DetailsBody) : AccountInfo :=
  if strIsEmpty (strTrim token) then defaultAccountInfo
  else
    match summaryFetch, detailsFetch with
    | .resolved summaryResponse, .resolved detailsResponse =>
      let summaryData := summaryDataOf summaryResponse
      let detailsData := detailsDataOf detailsResponse
      { balance := summaryData.balance.getD defaultAccountInfo.balance
        equity := summaryData.equity.getD defaultAccountInfo.equity
        margin := summaryData.margin.getD defaultAccountInfo.margin
        freeMargin := summaryData.freeMargin.getD defaultAccountInfo.freeMargin
        marginLevel := summaryData.marginLevel.getD defaultAccountInfo.marginLevel
        currency := summaryData.currency.getD defaultAccountInfo.currency
        profit := summaryData.profit.getD defaultAccountInfo.profit
        accountNumber := detailsData.accountNumber.getD defaultAccountInfo.accountNumber
        accountName := detailsData.accountName.getD defaultAccountInfo.accountName
        serverName := detailsData.serverName.getD defaultAccountInfo.serverName
        leverage := detailsData.leverage.getD defaultAccountInfo.leverage }
    | _, _ => defaultAccountInfo

/-- The observable state of the Dashboard polling scheduler
(Dashboard.tsx lines 26-33): the React state hooks plus the two refs.
`intervalArmed` models `intervalRef.current !== null`; `mounted` models
`mountedRef.current`; `lastUpdated` is an abstract timestamp. -/
structure SchedState where
  accountInfo : Option AccountInfo
  isLoading : Bool
  lastUpdated : Nat
  isConnected : Bool
  updateCount : Nat
  isRealTimeActive : Bool
  intervalArmed : Bool
  mounted : Bool
deriving Repr, DecidableEq

/-- How one awaited `getAccountInfo` call settles, as seen by
`fetchAccountInfo`: a snapshot, or a thrown exception. -/
inductive FetchResolution where
  | ok (info : AccountInfo)
  | threw
deriving Repr, DecidableEq

/-- Dashboard.tsx lines 35-36: the synchronous prefix of `fetchAccountInfo`
that runs before the await — sets the loading flag when requested. -/
def fetchStart (showLoading : Bool) (s : SchedState) : SchedState :=
  if showLoading then { s with isLoading := true } else s

/-- Dashboard.tsx lines 38-56: the continuation of `fetchAccountInfo` that
runs when the awaited call settles. Every state write is guarded by
`mountedRef.current`; the finally block clears the loading flag only when
still mounted and loading was shown. -/
def fetchResolve (showLoading : Bool) (res : FetchResolution) (now : Nat)
    (s : SchedState) : SchedState :=
  let s1 :=
    match res with
    | .ok info =>
      if s.mounted then
        { s with
          accountInfo := some info
          lastUpdated := now
          isConnected := true
          updateCount := s.updateCount + 1 }
      else s
    | .threw => if s.mounted then { s with isConnected := false } else s
  if s1.mounted && showLoading then { s1 with isLoading := false } else s1

/-- Dashboard.tsx lines 59-69, `startRealTimeUpdates`: clears any existing
interval and arms a fresh 1-second one. -/
def startRealTimeUpdates (s : SchedState) : SchedState :=
  { s with intervalArmed := true }

/-- Dashboard.tsx lines 71-76, `stopRealTimeUpdates`: clears the interval. -/
def stopRealTimeUpdates (s : SchedState) : SchedState :=
  { s with intervalArmed := false }

/-- Dashboard.tsx lines 78-88, `toggleRealTime`: flips the active flag and
starts or stops the interval accordingly. -/
def toggleRealTime (s : SchedState) : SchedState :=
  let newState := !s.isRealTimeActive
  let s2 := { s with isRealTimeActive := newState }
  if newState then startRealTimeUpdates s2 else stopRealTimeUpdates s2

/-- Dashboard.tsx lines 111-112 of the visibilitychange handler:
`document.hidden` cancels the interval and touches nothing else. -/
def visibilityHidden (s : SchedState) : SchedState :=
  stopRealTimeUpdates s

/-- Dashboard.tsx lines 113-115: on becoming visible the interval is
re-armed only when the active flag is still set. -/
def visibilityVisible (s : SchedState) : SchedState :=
  if s.isRealTimeActive then startRealTimeUpdates s else s

/-- Dashboard.tsx lines 90-99, the mount effect: set the mounted ref,
initiate the initial fetch with loading indication, and arm the interval
when the active flag is set. (The initial fetch is initiated here; its
resolution is a later `fetchResolve` event.) -/
def mountEffect (s : SchedState) : SchedState :=
  let s1 := { s with mounted := true }
  let s2 := fetchStart true s1
  if s2.isRealTimeActive then startRealTimeUpdates s2 else s2

/-- Dashboard.tsx lines 101-105, the effect cleanup: clear the mounted ref
and cancel the interval. -/
def unmountCleanup (s : SchedState) : SchedState :=
  stopRealTimeUpdates { s with mounted := false }

/-- Dashboard.tsx lines 64-68, one interval tick: initiates a background
fetch (no loading indication) only while mounted and active. Returns the
new state and whether a fetch was initiated. -/
def intervalTick (s : SchedState) : SchedState × Bool :=
  if s.mounted && s.isRealTimeActive then (fetchStart false s, true)
  else (s, false)

/-- Claim C1: for every login response whose HTTP status is exactly 200
(with credentials that pass validation, since otherwise no request is
issued), login reads the full response body as the candidate token and runs
the token validator on it — if it passes, login returns success with the
trimmed body as the token; if it fails, login returns the token-rejected
failure (success false with the bad-token error message) despite the HTTP
success. -/
theorem login_status200_runs_token_validator
    (credentials : LoginCredentials) (response : Response)
    (hv : validateCredentials credentials = none)
    (hs : response.status = 200) :
    loginToMT5 credentials (.success response) =
      (if validateToken response.body then
        { success := true, token := some (strTrim response.body) }
      else
        { success := false, error := some "Invalid authentication token received" }) := by
  simp [loginToMT5, hv, Response.ok, hs]

/-- Witness for C1, at the spec's own example: a 200 response whose body is
"error: invalid user" fails with the token-rejected message. -/
theorem login_status200_runs_token_validator_witness :
    loginToMT5 ⟨"12345", "pw", "srv"⟩
        (.success ⟨200, "OK", none, "error: invalid user", none⟩) =
      { success := false, error := some "Invalid authentication token received" } := by
  rw [login_status200_runs_token_validator ⟨"12345", "pw", "srv"⟩
        ⟨200, "OK", none, "error: invalid user", none⟩ (by decide) rfl]
  decide

/-- Claim C4: credential validation returns the first applicable error in
the fixed order username, password, server, then the numeric-account check,
and whenever it returns an error, login returns exactly that validation
failure for every transport outcome (hence without any network request). -/
theorem validate_credentials_first_error_order (c : LoginCredentials) :
    (strIsEmpty (strTrim c.username) = true →
      validateCredentials c = some "Username is required") ∧
    (strIsEmpty (strTrim c.username) = false →
      strIsEmpty (strTrim c.password) = true →
      validateCredentials c = some "Password is required") ∧
    (strIsEmpty (strTrim c.username) = false →
      strIsEmpty (strTrim c.password) = false →
      strIsEmpty (strTrim c.server) = true →
      validateCredentials c = some "Server is required") ∧
    (strIsEmpty (strTrim c.username) = false →
      strIsEmpty (strTrim c.password) = false →
      strIsEmpty (strTrim c.server) = false →
      regexAllDigits (strTrim c.username) = false →
      validateCredentials c = some "Username must be a valid account number (numeric)") ∧
    (strIsEmpty (strTrim c.username) = false →
      strIsEmpty (strTrim c.password) = false →
      strIsEmpty (strTrim c.server) = false →
      regexAllDigits (strTrim c.username) = true →
      validateCredentials c = none) ∧
    (∀ (e : String) (fetchOutcome : FetchOutcome),
      validateCredentials c = some e →
      loginToMT5 c fetchOutcome = { success := false, error := some e }) := by
  refine ⟨?_, ?_, ?_, ?_, ?_, ?_⟩
  · intro h1; simp [validateCredentials, h1]
  · intro h1 h2; simp [validateCredentials, h1, h2]
  · intro h1 h2 h3; simp [validateCredentials, h1, h2, h3]
  · intro h1 h2 h3 h4; simp [validateCredentials, h1, h2, h3, h4]
  · intro h1 h2 h3 h4; simp [validateCredentials, h1, h2, h3, h4]
  · intro e fetchOutcome he; simp [loginToMT5, he]

/-- Witness for C4: an all-whitespace username yields the username message,
and a non-numeric username yields the numeric-account message without the
transport outcome mattering. -/
theorem validate_credentials_first_error_order_witness :
    validateCredentials ⟨"   ", "pw", "srv"⟩ = some "Username is required" ∧
    loginToMT5 ⟨"abc", "pw", "srv"⟩ FetchOutcome.typeError =
      { success := false,
        error := some "Username must be a valid account number (numeric)" } := by
  constructor
  · exact (validate_credentials_first_error_order ⟨"   ", "pw", "srv"⟩).1 (by decide)
  · exact (validate_credentials_first_error_order ⟨"abc", "pw", "srv"⟩).2.2.2.2.2
      "Username must be a valid account number (numeric)" FetchOutcome.typeError (by decide)

/-- Counterexample to claim C5 as stated: the claim says the generic
fallback inside the JSON branch is "HTTP Error: {status}", but the code's
JSON-branch fallback is "API Error: {status}" (mt5Api.ts line 38), and a
JSON body that fails to parse yields "Network Error: {status} {statusText}"
(line 44), not the claimed fallback. -/
theorem login_non200_fallback_counterexample :
    (loginToMT5 ⟨"12345", "pw", "srv"⟩
        (.success ⟨500, "Internal Server Error", some "application/json", "", some []⟩) =
      { success := false, error := some "API Error: 500" }) ∧
    "API Error: 500" ≠ "HTTP Error: 500" ∧
    (loginToMT5 ⟨"12345", "pw", "srv"⟩
        (.success ⟨502, "Bad Gateway", some "application/json", "", none⟩) =
      { success := false, error := some "Network Error: 502 Bad Gateway" }) ∧
    "Network Error: 502 Bad Gateway" ≠ "HTTP Error: 502" := by
  decide

/-- Claim C5 as amended: for every login response with a status other than
200 (and credentials that validate), login returns an API failure whose
message is extracted as: when the content type indicates JSON — the body's
message field if truthy, else its error field if truthy, else
"API Error: {status}", and "Network Error: {status} {statusText}" when the
JSON body fails to parse; when the content type is not JSON — the raw
response text if non-empty, else "HTTP Error: {status}". -/
theorem login_non200_api_error_message
    (credentials : LoginCredentials) (response : Response)
    (hv : validateCredentials credentials = none)
    (hs : response.status ≠ 200) :
    loginToMT5 credentials (.success response) =
      { success := false, error := some (handleApiError response) } ∧
    handleApiError response =
      (if contentTypeIndicatesJson response.contentType then
        match response.jsonBody with
        | some errorData =>
            jsStringOr (errorData.lookup "message")
              (jsStringOr (errorData.lookup "error")
                ("API Error: " ++ toString response.status))
        | none =>
            "Network Error: " ++ toString response.status ++ " " ++ response.statusText
      else if strIsEmpty response.body then "HTTP Error: " ++ toString response.status
      else response.body) := by
  constructor
  · have hb : (response.status == 200) = false := by
      simp [hs]
    simp [loginToMT5, hv, hb]
  · rfl

/-- Witness for amended C5, at the spec's own example: a status-201 response
with JSON body carrying message "Server not found" yields exactly that
message as the API failure. -/
theorem login_non200_api_error_message_witness :
    loginToMT5 ⟨"12345", "pw", "srv"⟩
        (.success ⟨201, "Created", some "application/json", "",
          some [("message", "Server not found")]⟩) =
      { success := false, error := some "Server not found" } := by
  have h := login_non200_api_error_message ⟨"12345", "pw", "srv"⟩
      ⟨201, "Created", some "application/json", "", some [("message", "Server not found")]⟩
      (by decide) (by decide)
  rw [h.1]
  decide

/-- Claim C2: the snapshot fetcher is total at its boundary (it is a total
function into fully populated snapshots by construction); an empty or
whitespace-only token yields the all-defaults snapshot regardless of the
transport (hence with no network access), an escaping exception (either
promise rejecting, which rejects the joint await) also yields the
all-defaults snapshot, and the defaults are exactly balance 0, equity 0,
margin 0, freeMargin 0, marginLevel 0, currency "USD", accountNumber "N/A",
accountName "N/A", serverName "N/A", leverage 0, profit 0. -/
theorem fetch_snapshot_total_with_defaults
    (token : String) (summaryFetch : FetchResult SummaryBody)
    (detailsFetch : FetchResult DetailsBody)
    (h : strIsEmpty (strTrim token) = true) :
    getAccountInfo token summaryFetch detailsFetch = defaultAccountInfo ∧
    (∀ (t : String) (sf : FetchResult SummaryBody),
      getAccountInfo t sf FetchResult.rejected = defaultAccountInfo) ∧
    (∀ (t : String) (df : FetchResult DetailsBody),
      getAccountInfo t FetchResult.rejected df = defaultAccountInfo) ∧
    defaultAccountInfo = ⟨0, 0, 0, 0, 0, "USD", "N/A", "N/A", "N/A", 0, 0⟩ := by
  refine ⟨by simp [getAccountInfo, h], ?_, ?_, by decide⟩
  · intro t sf; cases sf <;> simp [getAccountInfo]
  · intro t df; cases df <;> simp [getAccountInfo]

/-- Witness for C2: a whitespace-only token gives the defaults even when
both fetch outcomes reject. -/
theorem fetch_snapshot_total_with_defaults_witness :
    getAccountInfo "   " FetchResult.rejected FetchResult.rejected =
      defaultAccountInfo :=
  (fetch_snapshot_total_with_defaults "   " FetchResult.rejected FetchResult.rejected
    (by decide)).1

/-- Claim C3: the snapshot merge is field-by-field with no cross-source
inference — every summary-sourced field of the result is the summary body's
value when present there, else the fixed default, independent of the details
response, and symmetrically for details-sourced fields; in particular a
non-2xx summary combined with a details success carrying only the account
number 12345 merges to the all-defaults snapshot with accountNumber 12345. -/
theorem snapshot_merge_field_by_field
    (token : String) (summaryResponse : SnapshotResponse SummaryBody)
    (detailsResponse : SnapshotResponse DetailsBody)
    (h : strIsEmpty (strTrim token) = false) :
    getAccountInfo token (.resolved summaryResponse) (.resolved detailsResponse) =
      { balance := (summaryDataOf summaryResponse).balance.getD 0
        equity := (summaryDataOf summaryResponse).equity.getD 0
        margin := (summaryDataOf summaryResponse).margin.getD 0
        freeMargin := (summaryDataOf summaryResponse).freeMargin.getD 0
        marginLevel := (summaryDataOf summaryResponse).marginLevel.getD 0
        currency := (summaryDataOf summaryResponse).currency.getD "USD"
        profit := (summaryDataOf summaryResponse).profit.getD 0
        accountNumber := (detailsDataOf detailsResponse).accountNumber.getD "N/A"
        accountName := (detailsDataOf detailsResponse).accountName.getD "N/A"
        serverName := (detailsDataOf detailsResponse).serverName.getD "N/A"
        leverage := (detailsDataOf detailsResponse).leverage.getD 0 } ∧
    getAccountInfo "tok"
        (.resolved ⟨500, some { balance := some 7, equity := some 8, margin := some 9,
                                freeMargin := some 10, marginLevel := some 11,
                                currency := some "EUR", profit := some 12 }⟩)
        (.resolved ⟨200, some { accountNumber := some "12345" }⟩) =
      { defaultAccountInfo with accountNumber := "12345" } := by
  constructor
  · simp [getAccountInfo, h, defaultAccountInfo]
  · decide

/-- Witness for C3: a summary carrying only a balance and a details carrying
only an account name merge into the snapshot with exactly those two fields
set and every other field at its default. -/
theorem snapshot_merge_field_by_field_witness :
    getAccountInfo "token1234"
        (.resolved ⟨200, some { balance := some 42 }⟩)
        (.resolved ⟨200, some { accountName := some "Alice" }⟩) =
      { defaultAccountInfo with balance := 42, accountName := "Alice" } := by
  rw [(snapshot_merge_field_by_field "token1234"
        ⟨200, some { balance := some 42 }⟩
        ⟨200, some { accountName := some "Alice" }⟩ (by decide)).1]
  decide

/-- Claim C10: partial-failure tolerance covers only HTTP-status and parse
failures, not transport failures — if either snapshot request rejects at the
transport level, the joint await rejects and the all-defaults snapshot is
returned, discarding the other request's data even when that request
succeeded with a populated body. -/
theorem snapshot_transport_reject_discards_other
    (token : String) (summaryResponse : SnapshotResponse SummaryBody)
    (detailsResponse : SnapshotResponse DetailsBody) :
    getAccountInfo token (.resolved summaryResponse) FetchResult.rejected =
      defaultAccountInfo ∧
    getAccountInfo token FetchResult.rejected (.resolved detailsResponse) =
      defaultAccountInfo ∧
    getAccountInfo "token1234"
        (.resolved ⟨200, some { balance := some 5, currency := some "EUR" }⟩)
        FetchResult.rejected = defaultAccountInfo := by
  refine ⟨by simp [getAccountInfo], by simp [getAccountInfo], by decide⟩

/-- Claim C6: after the owning context is torn down, no fetch result is ever
published — resolving any in-flight fetch against an unmounted state is the
identity on the scheduler's observable state; in particular, after the
mount effect (which initiates the initial fetch) followed immediately by the
cleanup, the later resolution of that fetch mutates nothing. -/
theorem teardown_drops_late_results
    (s : SchedState) (showLoading : Bool) (res : FetchResolution) (now : Nat)
    (h : s.mounted = false) :
    fetchResolve showLoading res now s = s ∧
    (∀ s0 : SchedState,
      fetchResolve showLoading res now (unmountCleanup (mountEffect s0)) =
        unmountCleanup (mountEffect s0)) := by
  have key : ∀ t : SchedState, t.mounted = false →
      fetchResolve showLoading res now t = t := by
    intro t ht; cases res <;> simp [fetchResolve, ht]
  exact ⟨key s h, fun s0 => key _ (by simp [unmountCleanup, stopRealTimeUpdates])⟩

/-- Witness for C6: resolving a successful fetch against a concrete
unmounted state changes nothing. -/
theorem teardown_drops_late_results_witness :
    fetchResolve true (FetchResolution.ok defaultAccountInfo) 7
        ⟨none, true, 0, true, 0, true, false, false⟩ =
      ⟨none, true, 0, true, 0, true, false, false⟩ :=
  (teardown_drops_late_results ⟨none, true, 0, true, 0, true, false, false⟩
    true (FetchResolution.ok defaultAccountInfo) 7 rfl).1

/-- Counterexample to claim C7 as stated: the Dashboard has no tick-sequence
counter, and publication order follows resolution order, not initiation
order. Trace: from a mounted, active state two background fetches are
initiated, A then B (`fetchStart false` is stateless for background
fetches); B resolves first and its snapshot (balance 2) is published; then A
resolves and its snapshot (balance 1) is ALSO published, overwriting B's —
a snapshot published after a later-initiated snapshot's result had already
been published. -/
theorem publication_order_counterexample :
    ((fetchResolve false (.ok { defaultAccountInfo with balance := 2 }) 1
        (fetchStart false (fetchStart false
          ⟨none, false, 0, true, 0, true, true, true⟩))).accountInfo =
      some { defaultAccountInfo with balance := 2 }) ∧
    ((fetchResolve false (.ok { defaultAccountInfo with balance := 1 }) 2
        (fetchResolve false (.ok { defaultAccountInfo with balance := 2 }) 1
          (fetchStart false (fetchStart false
            ⟨none, false, 0, true, 0, true, true, true⟩)))).accountInfo =
      some { defaultAccountInfo with balance := 1 }) ∧
    ({ defaultAccountInfo with balance := 1 } : AccountInfo) ≠
      { defaultAccountInfo with balance := 2 } := by
  decide

/-- Claim C7 as amended: the scheduler orders publications by resolution,
not initiation — while the context is mounted, every successful fetch
resolution is published unconditionally (last resolved wins: the snapshot is
stored, the update counter increments, the timestamp is taken from the
resolution), and stale in-flight results are rejected only after teardown
via the mounted flag; no tick-sequence counter exists. -/
theorem publication_follows_resolution_order
    (s : SchedState) (showLoading : Bool) (info : AccountInfo) (now : Nat)
    (h : s.mounted = true) :
    (fetchResolve showLoading (.ok info) now s).accountInfo = some info ∧
    (fetchResolve showLoading (.ok info) now s).updateCount = s.updateCount + 1 ∧
    (fetchResolve showLoading (.ok info) now s).lastUpdated = now ∧
    (∀ t : SchedState, t.mounted = false →
      fetchResolve showLoading (.ok info) now t = t) := by
  cases showLoading <;>
    exact ⟨by simp [fetchResolve, h], by simp [fetchResolve, h],
      by simp [fetchResolve, h], fun t ht => by simp [fetchResolve, ht]⟩

/-- Witness for amended C7: a mounted background resolution publishes its
snapshot. -/
theorem publication_follows_resolution_order_witness :
    (fetchResolve false (FetchResolution.ok defaultAccountInfo) 3
        ⟨none, false, 0, true, 0, true, true, true⟩).accountInfo =
      some defaultAccountInfo :=
  (publication_follows_resolution_order ⟨none, false, 0, true, 0, true, true, true⟩
    false defaultAccountInfo 3 rfl).1

/-- Claim C8: a visibility-hidden event cancels the recurring timer without
changing the logical active flag, and a following visibility-visible event
re-arms the timer exactly when that flag is still true — so hidden-then-
visible without a toggle leaves the active flag unchanged and resumes
ticking precisely when it was active. -/
theorem visibility_preserves_active_flag (s : SchedState) :
    (visibilityHidden s).isRealTimeActive = s.isRealTimeActive ∧
    (visibilityHidden s).intervalArmed = false ∧
    (visibilityVisible (visibilityHidden s)).isRealTimeActive = s.isRealTimeActive ∧
    (visibilityVisible (visibilityHidden s)).intervalArmed = s.isRealTimeActive := by
  cases h : s.isRealTimeActive <;>
    simp [visibilityHidden, visibilityVisible, startRealTimeUpdates,
      stopRealTimeUpdates, h]

/-- Claim C9: there is a status-200 response body that passes the token
validator (its untrimmed length is at least 10) yet login succeeds with a
trimmed token of fewer than 10 characters, violating the length rule stated
for session tokens. -/
theorem issued_token_can_be_shorter_than_ten :
    ∃ (credentials : LoginCredentials) (response : Response),
      response.status = 200 ∧
      validateToken response.body = true ∧
      loginToMT5 credentials (.success response) =
        { success := true, token := some (strTrim response.body) } ∧
      (strTrim response.body).data.length < 10 := by
  exact ⟨⟨"12345", "pw", "srv"⟩, ⟨200, "OK", none, "abc1234   ", none⟩,
    rfl, by decide, by decide, by decide⟩

end MT5Login
